import Mathlib

/-!
Verification of the mirrored-repeat sampling test harness
(`src/TestOpenCLSamplers.cpp`).

The development shallowly embeds the host-side logic of the program:

* `cpu_reference_calculation` (lines 20-50): the CPU reference that
  emulates `CL_ADDRESS_MIRRORED_REPEAT`.  Buffers are `List α` with the
  element type abstracted, since the function only copies scalar values
  (the C++ instance is `float`, and the concrete run uses the exactly
  representable values 0..19, modelled by the corresponding naturals).
* the comparison loop of `main` (lines 195-202);
* the control flow of `main` (exit codes and unconditional printing),
  with every external OpenCL/file-system interaction abstracted into an
  environment record of status codes and the buffer the device returns.

C `int` arithmetic is modelled by `Int` (the values arising in the source
stay far below 2^31, and where a conversion from `unsigned int` matters it
is made explicit via `toInt32`); the C `%` on `int` is the truncating
`Int.tmod`.
-/

/-- Value of a C `unsigned int` reinterpreted by `static_cast<int>`
(two-complement wrap), as on lines 31-32 of the source. -/
def toInt32 (u : Nat) : Int :=
  if u % 2 ^ 32 < 2 ^ 31 then ((u % 2 ^ 32 : Nat) : Int)
  else ((u % 2 ^ 32 : Nat) : Int) - 2 ^ 32

/-- Mirroring logic for one axis, lines 34-38 (and identically 40-44) of
`cpu_reference_calculation`:

    int prime = shifted; if (prime < 0) prime = -prime - 1;
    int mod2s = prime % (extent * 2);
    int src   = (mod2s < extent) ? mod2s : (extent * 2 - 1 - mod2s);

The C `%` on `int` truncates toward zero, hence `Int.tmod`. -/
def mirrorIndex (extent shifted : Int) : Int :=
  let prime := if shifted < 0 then -shifted - 1 else shifted
  let mod2s := Int.tmod prime (extent * 2)
  if mod2s < extent then mod2s else extent * 2 - 1 - mod2s

/-- Read of a C++ `std::vector` at a signed index: the element when the
index is in range, the junk default `d` otherwise (an out-of-range access
is undefined behaviour in the source; the safety theorems show the default
is never consulted). -/
def vecRead (l : List α) (d : α) (i : Int) : α :=
  if i < 0 then d else l.getD i.toNat d

/-- The flat source index computed by the loop body for one output pixel
(lines 31-47): shift both coordinates by the cast offsets, mirror each
axis, then row-major lookup `y_src * src_w + x_src`. -/
def pixelSrcIndex (src_w src_h offset_x offset_y x_out y_out : Nat) : Int :=
  let x_shifted : Int := (x_out : Int) - toInt32 offset_x
  let y_shifted : Int := (y_out : Int) - toInt32 offset_y
  let x_src := mirrorIndex (src_w : Int) x_shifted
  let y_src := mirrorIndex (src_h : Int) y_shifted
  y_src * (src_w : Int) + x_src

/-- The iteration sequence of the two nested loops of
`cpu_reference_calculation` (lines 27-28): `y_out` outer from 0 to
`dst_h - 1`, `x_out` inner from 0 to `dst_w - 1`; pairs are `(x_out, y_out)`. -/
def loopPixels (dst_w dst_h : Nat) : List (Nat × Nat) :=
  (List.range dst_h).flatMap (fun y_out =>
    (List.range dst_w).map (fun x_out => (x_out, y_out)))

/-- Executing a sequence of destination writes `dst_data[p.2 * w + p.1] = f p`,
one per loop iteration (line 47 of the source). -/
def applyWrites (f : Nat × Nat → α) (w : Nat) (ps : List (Nat × Nat))
    (acc : List α) : List α :=
  ps.foldl (fun a p => a.set (p.2 * w + p.1) (f p)) acc

/-- Function `cpu_reference_calculation` (lines 20-50): for every output pixel in
loop order, write `src_data[y_src * src_w + x_src]` into
`dst_data[y_out * dst_w + x_out]`.  `dst` is the destination vector as
passed in (by reference); `d` is the junk value for the (never exercised)
out-of-range reads. -/
def cpu_reference_calculation (src dst : List α)
    (src_w src_h dst_w dst_h offset_x offset_y : Nat) (d : α) : List α :=
  applyWrites
    (fun p => vecRead src d (pixelSrcIndex src_w src_h offset_x offset_y p.1 p.2))
    dst_w (loopPixels dst_w dst_h) dst

/-- The two vectors visible to `cpu_reference_calculation`: `src_data` is a
const reference, `dst_data` the output parameter. -/
structure BufMem (α : Type u) where
  src_data : List α
  dst_data : List α

/-- Lines 20-50 viewed as a transformer of the caller memory: the call
assigns only `dst_data`. -/
def cpu_reference_run (m : BufMem α)
    (src_w src_h dst_w dst_h offset_x offset_y : Nat) (d : α) : BufMem α :=
  { src_data := m.src_data,
    dst_data := cpu_reference_calculation m.src_data m.dst_data
      src_w src_h dst_w dst_h offset_x offset_y d }

/-- The comparison loop of `main` (lines 195-202), from index `i` with
`fuel` indices left to scan: on the first pair with
`cpu_result[i] != kernel_result_manual[i]` set `manual_match = false`,
record the index and both values (the `std::cerr` diagnostic), and `break`. -/
def compareResults [DecidableEq α] (cpu kern : List α) (d : α) :
    Nat → Nat → Bool × Option (Nat × α × α)
  | _, 0 => (true, none)
  | i, fuel + 1 =>
    if cpu.getD i d ≠ kern.getD i d then
      (false, some (i, cpu.getD i d, kern.getD i d))
    else compareResults cpu kern d (i + 1) fuel

/-- Per-axis mirrored index worded exactly as the specification (§4.1 and
claim C1) states it: `prime = shifted` if `shifted ≥ 0` else `-shifted - 1`;
`mod2s = prime mod (2 × extent)` with the always-nonnegative mathematical
mod; `src_index = mod2s` if `mod2s < extent` else `2 × extent - 1 - mod2s`.
Kept separate from `mirrorIndex` (read off the code) so the two can be
compared. -/
def specMirror (extent shifted : Int) : Int :=
  let prime := if 0 ≤ shifted then shifted else -shifted - 1
  let mod2s := prime % (2 * extent)
  if mod2s < extent then mod2s else 2 * extent - 1 - mod2s

/-- Flat source index worded as the specification states it: shift each
output coordinate by the offset in plain signed arithmetic, mirror per
axis with `specMirror`, then row-major lookup `y_src × src_w + x_src`. -/
def specSrcIndex (src_w src_h : Nat) (offset_x offset_y : Int)
    (x_out y_out : Nat) : Int :=
  specMirror (src_h : Int) ((y_out : Int) - offset_y) * (src_w : Int)
    + specMirror (src_w : Int) ((x_out : Int) - offset_x)

/-- Buffer `host_input_data` of `main` (lines 87-90): element `i` has value `i`
(the floats 0..19, all exactly representable, modelled by naturals). -/
def host_input_data : List Nat := List.range 20

/-- The `cpu_result` buffer of the canonical run of `main` (line 97):
source 4×5, destination 12×12, offset (5,2); `cpu_result` is a
value-initialized `std::vector` of 144 floats, hence all zero before the
call. -/
def canonical_cpu_result : List Nat :=
  cpu_reference_calculation host_input_data (List.replicate 144 0)
    4 5 12 12 5 2 0

/-- One item of the standard-output stream of `main` (lines 204-212),
abstracting the exact formatting of `printMatrix`. -/
inductive StdoutItem (α : Type u) where
  | resultsHeader : StdoutItem α
  | passFailLine : Bool → StdoutItem α
  | cpuResultGrid : List α → StdoutItem α
  | kernelResultGrid : List α → StdoutItem α
deriving DecidableEq

/-- Observable outcome of one run of `main`: the process exit code and the
standard-output items, in order. -/
structure RunOutcome (α : Type u) where
  exitCode : Nat
  stdout : List (StdoutItem α)

/-- Status `CL_SUCCESS` of the OpenCL headers. -/
def CL_SUCCESS : Int := 0

/-- Results of every external interaction `main` performs, in program
order: the status each OpenCL call returns, whether `sampler_test.cl`
opens, and the buffer `clEnqueueReadImage` deposits into
`kernel_result_manual`. -/
structure ClEnv (α : Type u) where
  statusGetPlatformIDs : Int
  statusGetDeviceIDs : Int
  statusCreateContext : Int
  statusCreateCommandQueue : Int
  kernelFileOpens : Bool
  statusCreateProgramWithSource : Int
  statusBuildProgram : Int
  statusCreateKernel : Int
  statusCreateImageIn : Int
  statusCreateImageOut : Int
  statusSetArg0 : Int
  statusSetArg1 : Int
  statusSetArg2 : Int
  statusEnqueueNDRange : Int
  statusReadImage : Int
  statusFinish : Int
  kernelResult : List α

/-- Abort path of `CL_CHECK` (lines 12-16) and of the explicit
`return 1` branches (lines 121-124 and 134-141): a diagnostic goes to
`std::cerr` (not modelled) and the process ends with code 1 having printed
nothing to standard output. -/
def fatalOutcome : RunOutcome Nat := { exitCode := 1, stdout := [] }

/-- Control flow of `main` (lines 76-223) over an environment of external
results: the CPU reference runs first (line 97); each subsequent OpenCL
call is guarded by `CL_CHECK` (exit 1 on a non-`CL_SUCCESS` status), a
missing kernel file and a failed program build return 1; afterwards the
comparison loop runs and the header line, the PASS/FAIL line and both
grids are printed unconditionally (the conditional on line 206 is
commented out); the final return value is 0. -/
def main_model (env : ClEnv Nat) : RunOutcome Nat :=
  let cpu_result := canonical_cpu_result
  if env.statusGetPlatformIDs ≠ CL_SUCCESS then fatalOutcome
  else if env.statusGetDeviceIDs ≠ CL_SUCCESS then fatalOutcome
  else if env.statusCreateContext ≠ CL_SUCCESS then fatalOutcome
  else if env.statusCreateCommandQueue ≠ CL_SUCCESS then fatalOutcome
  else if env.kernelFileOpens = false then fatalOutcome
  else if env.statusCreateProgramWithSource ≠ CL_SUCCESS then fatalOutcome
  else if env.statusBuildProgram ≠ CL_SUCCESS then fatalOutcome
  else if env.statusCreateKernel ≠ CL_SUCCESS then fatalOutcome
  else if env.statusCreateImageIn ≠ CL_SUCCESS then fatalOutcome
  else if env.statusCreateImageOut ≠ CL_SUCCESS then fatalOutcome
  else if env.statusSetArg0 ≠ CL_SUCCESS then fatalOutcome
  else if env.statusSetArg1 ≠ CL_SUCCESS then fatalOutcome
  else if env.statusSetArg2 ≠ CL_SUCCESS then fatalOutcome
  else if env.statusEnqueueNDRange ≠ CL_SUCCESS then fatalOutcome
  else if env.statusReadImage ≠ CL_SUCCESS then fatalOutcome
  else if env.statusFinish ≠ CL_SUCCESS then fatalOutcome
  else
    let kernel_result_manual := env.kernelResult
    let manual_match := (compareResults cpu_result kernel_result_manual 0 0 144).1
    { exitCode := 0,
      stdout := [StdoutItem.resultsHeader, StdoutItem.passFailLine manual_match,
        StdoutItem.cpuResultGrid cpu_result,
        StdoutItem.kernelResultGrid kernel_result_manual] }

/-- The environment condition under which `main` reaches its normal
return: every OpenCL call succeeds, the kernel source file opens and the
program builds. -/
def envOk (env : ClEnv Nat) : Prop :=
  env.statusGetPlatformIDs = CL_SUCCESS ∧
  env.statusGetDeviceIDs = CL_SUCCESS ∧
  env.statusCreateContext = CL_SUCCESS ∧
  env.statusCreateCommandQueue = CL_SUCCESS ∧
  env.kernelFileOpens = true ∧
  env.statusCreateProgramWithSource = CL_SUCCESS ∧
  env.statusBuildProgram = CL_SUCCESS ∧
  env.statusCreateKernel = CL_SUCCESS ∧
  env.statusCreateImageIn = CL_SUCCESS ∧
  env.statusCreateImageOut = CL_SUCCESS ∧
  env.statusSetArg0 = CL_SUCCESS ∧
  env.statusSetArg1 = CL_SUCCESS ∧
  env.statusSetArg2 = CL_SUCCESS ∧
  env.statusEnqueueNDRange = CL_SUCCESS ∧
  env.statusReadImage = CL_SUCCESS ∧
  env.statusFinish = CL_SUCCESS

/-- An all-successful environment whose device returns an all-zero buffer,
which disagrees with the CPU reference: used to exercise the
mismatch-but-normal-exit path. -/
def testEnvMismatch : ClEnv Nat :=
  { statusGetPlatformIDs := 0, statusGetDeviceIDs := 0,
    statusCreateContext := 0, statusCreateCommandQueue := 0,
    kernelFileOpens := true, statusCreateProgramWithSource := 0,
    statusBuildProgram := 0, statusCreateKernel := 0,
    statusCreateImageIn := 0, statusCreateImageOut := 0,
    statusSetArg0 := 0, statusSetArg1 := 0, statusSetArg2 := 0,
    statusEnqueueNDRange := 0, statusReadImage := 0, statusFinish := 0,
    kernelResult := List.replicate 144 0 }

/-- An environment whose very first OpenCL call fails. -/
def testEnvNoPlatform : ClEnv Nat :=
  { testEnvMismatch with statusGetPlatformIDs := -1001 }

/-! ### List update and loop characterization lemmas -/

theorem getD_set_eq (l : List α) (j i : Nat) (a d : α) :
    (l.set j a).getD i d =
      if j = i ∧ i < l.length then a else l.getD i d := by
  rw [List.getD_eq_getElem?_getD, List.getD_eq_getElem?_getD, List.getElem?_set]
  by_cases h1 : j = i
  · subst h1
    by_cases h2 : j < l.length
    · simp [h2]
    · have hnone : l[j]? = none := List.getElem?_eq_none (by omega)
      simp [h2, hnone]
  · simp [h1]

theorem foldl_set_length (l : List Nat) (g : Nat → Nat) (v : Nat → α) (acc : List α) :
    (l.foldl (fun a x => a.set (g x) (v x)) acc).length = acc.length := by
  induction l generalizing acc with
  | nil => rfl
  | cons p ps ih => rw [List.foldl_cons, ih, List.length_set]

theorem applyWrites_length (f : Nat × Nat → α) (w : Nat) (ps : List (Nat × Nat))
    (acc : List α) : (applyWrites f w ps acc).length = acc.length := by
  induction ps generalizing acc with
  | nil => rfl
  | cons p ps ih => rw [applyWrites, List.foldl_cons, ← applyWrites, ih, List.length_set]

theorem foldl_set_range (n base : Nat) (v : Nat → α) (acc : List α) (d : α)
    (hlen : base + n ≤ acc.length) (i : Nat) :
    ((List.range n).foldl (fun a x => a.set (base + x) (v x)) acc).getD i d =
      if base ≤ i ∧ i < base + n then v (i - base) else acc.getD i d := by
  induction n generalizing i with
  | zero =>
    simp only [List.range_zero, List.foldl_nil]
    have hno : ¬ (base ≤ i ∧ i < base + 0) := by omega
    rw [if_neg hno]
  | succ n ih =>
    rw [List.range_succ, List.foldl_append, List.foldl_cons, List.foldl_nil]
    rw [getD_set_eq, foldl_set_length]
    by_cases hi : base + n = i ∧ i < acc.length
    · have hyes : base ≤ i ∧ i < base + (n + 1) := by omega
      rw [if_pos hi, if_pos hyes]
      congr 1
      omega
    · rw [if_neg hi, ih (by omega)]
      by_cases h2 : base ≤ i ∧ i < base + n
      · have hyes : base ≤ i ∧ i < base + (n + 1) := by omega
        rw [if_pos h2, if_pos hyes]
      · have hno : ¬ (base ≤ i ∧ i < base + (n + 1)) := by omega
        rw [if_neg h2, if_neg hno]

theorem applyWrites_row (f : Nat × Nat → α) (w n y : Nat) (acc : List α)
    (d : α) (hlen : y * w + n ≤ acc.length) (i : Nat) :
    (applyWrites f w ((List.range n).map (fun x => (x, y))) acc).getD i d =
      if y * w ≤ i ∧ i < y * w + n then f (i - y * w, y) else acc.getD i d := by
  rw [applyWrites, List.foldl_map]
  have hbody : (fun (a : List α) (x : Nat) => a.set ((x, y).2 * w + (x, y).1) (f (x, y)))
      = fun (a : List α) (x : Nat) => a.set (y * w + x) ((fun x => f (x, y)) x) := rfl
  rw [hbody, foldl_set_range n (y * w) (fun x => f (x, y)) acc d hlen i]

theorem applyWrites_loop (f : Nat × Nat → α) (w h : Nat) (acc : List α)
    (d : α) (hlen : h * w ≤ acc.length) (i : Nat) :
    (applyWrites f w (loopPixels w h) acc).getD i d =
      if i < h * w then f (i % w, i / w) else acc.getD i d := by
  induction h generalizing i with
  | zero =>
    simp only [loopPixels, List.range_zero, List.flatMap_nil, applyWrites, List.foldl_nil]
    have hno : ¬ i < 0 * w := by omega
    rw [if_neg hno]
  | succ h ih =>
    have hmul : (h + 1) * w = h * w + w := by ring
    have hsplit : applyWrites f w (loopPixels w (h + 1)) acc =
        applyWrites f w ((List.range w).map (fun x => (x, h)))
          (applyWrites f w (loopPixels w h) acc) := by
      rw [loopPixels, List.range_succ, List.flatMap_append, List.flatMap_singleton,
        applyWrites, List.foldl_append]
      rfl
    rw [hsplit]
    rw [applyWrites_row f w w h _ d (by rw [applyWrites_length]; omega)]
    by_cases hrow : h * w ≤ i ∧ i < h * w + w
    · have hyes : i < (h + 1) * w := by omega
      rw [if_pos hrow, if_pos hyes]
      have hw : 0 < w := by omega
      obtain ⟨r, hr1, hr2⟩ : ∃ r, i = r + h * w ∧ r < w := ⟨i - h * w, by omega, by omega⟩
      subst hr1
      rw [Nat.add_mul_mod_self_right, Nat.add_mul_div_right _ _ hw,
        Nat.mod_eq_of_lt hr2, Nat.div_eq_of_lt hr2]
      have h0 : 0 + h = h := by omega
      have hsub : r + h * w - h * w = r := by omega
      rw [h0, hsub]
    · rw [if_neg hrow, ih (by omega)]
      by_cases h2 : i < h * w
      · have hyes : i < (h + 1) * w := by omega
        rw [if_pos h2, if_pos hyes]
      · have hno : ¬ i < (h + 1) * w := by omega
        rw [if_neg h2, if_neg hno]

/-! ### Arithmetic of the mirrored index -/

theorem mirrorIndex_def (e s : Int) :
    mirrorIndex e s =
      (if Int.tmod (if s < 0 then -s - 1 else s) (e * 2) < e
       then Int.tmod (if s < 0 then -s - 1 else s) (e * 2)
       else e * 2 - 1 - Int.tmod (if s < 0 then -s - 1 else s) (e * 2)) := rfl

theorem specMirror_def (e s : Int) :
    specMirror e s =
      (if (if 0 ≤ s then s else -s - 1) % (2 * e) < e
       then (if 0 ≤ s then s else -s - 1) % (2 * e)
       else 2 * e - 1 - (if 0 ≤ s then s else -s - 1) % (2 * e)) := rfl

theorem toInt32_small (u : Nat) (h : u < 2 ^ 31) : toInt32 u = (u : Nat) := by
  unfold toInt32
  have h1 : u % 2 ^ 32 = u := Nat.mod_eq_of_lt (by omega)
  rw [h1, if_pos h]

theorem mirror_eq_specMirror (e s : Int) (he : 0 ≤ e) :
    mirrorIndex e s = specMirror e s := by
  rw [mirrorIndex_def, specMirror_def]
  have hprime : (if s < 0 then -s - 1 else s) = (if 0 ≤ s then s else -s - 1) := by
    split <;> split <;> omega
  rw [hprime]
  have hm : Int.tmod (if 0 ≤ s then s else -s - 1) (e * 2)
      = (if 0 ≤ s then s else -s - 1) % (2 * e) := by
    rw [Int.tmod_eq_emod (by split <;> omega) (by omega), mul_comm e 2]
  rw [hm, mul_comm e 2]

theorem mirror_range (e s : Int) (he : 0 < e) :
    0 ≤ mirrorIndex e s ∧ mirrorIndex e s < e := by
  rw [mirrorIndex_def]
  have hp : 0 ≤ (if s < 0 then -s - 1 else s) := by split <;> omega
  rw [Int.tmod_eq_emod hp (by omega : (0:Int) ≤ e * 2)]
  set m := (if s < 0 then -s - 1 else s) % (e * 2) with hm
  have h3 : 0 ≤ m := Int.emod_nonneg _ (by omega)
  have h4 : m < e * 2 := Int.emod_lt_of_pos _ (by omega)
  split <;> omega

theorem mirror_small (e s : Int) (he : 0 < e) (h0 : 0 ≤ s) (hs : s < e) :
    mirrorIndex e s = s := by
  rw [mirrorIndex_def]
  rw [if_neg (by omega : ¬ s < 0)]
  rw [Int.tmod_eq_emod h0 (by omega), Int.emod_eq_of_lt h0 (by omega)]
  rw [if_pos hs]

theorem mirror_reflect (e s : Int) : mirrorIndex e (-1 - s) = mirrorIndex e s := by
  rw [mirrorIndex_def, mirrorIndex_def]
  have : (if (-1 - s) < 0 then -(-1 - s) - 1 else (-1 - s)) =
         (if s < 0 then -s - 1 else s) := by split <;> split <;> omega
  rw [this]

theorem mirror_period (e s : Int) (he : 0 < e) :
    mirrorIndex e (s + 2 * e) = mirrorIndex e s := by
  rw [mirrorIndex_def, mirrorIndex_def]
  rcases le_or_lt 0 s with hs | hs
  · rw [if_neg (by omega : ¬ s + 2 * e < 0), if_neg (by omega : ¬ s < 0)]
    rw [Int.tmod_eq_emod (by omega) (by omega), Int.tmod_eq_emod hs (by omega)]
    have : (s + 2 * e) % (e * 2) = s % (e * 2) := by
      have h1 : s + 2 * e = s + (e * 2) * 1 := by ring
      rw [h1, Int.add_mul_emod_self_left]
    rw [this]
  · rcases le_or_lt 0 (s + 2 * e) with hs2 | hs2
    · rw [if_neg (by omega : ¬ s + 2 * e < 0), if_pos hs]
      rw [Int.tmod_eq_emod (by omega) (by omega), Int.tmod_eq_emod (by omega) (by omega)]
      rw [Int.emod_eq_of_lt (by omega) (by omega), Int.emod_eq_of_lt (by omega) (by omega)]
      split <;> split <;> omega
    · rw [if_pos (by omega : s + 2 * e < 0), if_pos hs]
      rw [Int.tmod_eq_emod (by omega) (by omega), Int.tmod_eq_emod (by omega) (by omega)]
      have : -s - 1 = (-(s + 2 * e) - 1) + (e * 2) * 1 := by ring
      rw [this, Int.add_mul_emod_self_left]

theorem pixelSrcIndex_def (sw sh ox oy x y : Nat) :
    pixelSrcIndex sw sh ox oy x y =
      mirrorIndex (sh : Int) ((y : Int) - toInt32 oy) * (sw : Int)
        + mirrorIndex (sw : Int) ((x : Int) - toInt32 ox) := rfl

theorem pixelSrcIndex_range (sw sh ox oy x y : Nat)
    (hsw : 0 < sw) (hsh : 0 < sh) :
    0 ≤ pixelSrcIndex sw sh ox oy x y ∧
      pixelSrcIndex sw sh ox oy x y < (sw : Int) * (sh : Int) := by
  rw [pixelSrcIndex_def]
  obtain ⟨hx0, hx1⟩ := mirror_range (sw : Int) ((x : Int) - toInt32 ox)
    (by exact_mod_cast hsw)
  obtain ⟨hy0, hy1⟩ := mirror_range (sh : Int) ((y : Int) - toInt32 oy)
    (by exact_mod_cast hsh)
  set xs := mirrorIndex (sw : Int) ((x : Int) - toInt32 ox)
  set ys := mirrorIndex (sh : Int) ((y : Int) - toInt32 oy)
  constructor
  · have : 0 ≤ ys * (sw : Int) := mul_nonneg hy0 (by positivity)
    omega
  · have h1 : ys * (sw : Int) + xs < (ys + 1) * (sw : Int) := by
      have : (ys + 1) * (sw : Int) = ys * (sw : Int) + (sw : Int) := by ring
      omega
    have h2 : (ys + 1) * (sw : Int) ≤ (sh : Int) * (sw : Int) :=
      mul_le_mul_of_nonneg_right (by omega) (by positivity)
    have h3 : (sh : Int) * (sw : Int) = (sw : Int) * (sh : Int) := mul_comm _ _
    omega

/-! ### Pixel-level characterization of the reference evaluator -/

theorem cpu_reference_getD (src dst : List α)
    (sw sh dw dh ox oy : Nat) (d : α)
    (hlen : dh * dw ≤ dst.length) (i : Nat) :
    (cpu_reference_calculation src dst sw sh dw dh ox oy d).getD i d =
      if i < dh * dw then vecRead src d (pixelSrcIndex sw sh ox oy (i % dw) (i / dw))
      else dst.getD i d := by
  rw [cpu_reference_calculation]
  rw [applyWrites_loop _ dw dh dst d hlen i]

theorem cpu_reference_length (src dst : List α)
    (sw sh dw dh ox oy : Nat) (d : α) :
    (cpu_reference_calculation src dst sw sh dw dh ox oy d).length
      = dst.length := by
  rw [cpu_reference_calculation, applyWrites_length]

theorem rowmajor_lt (x y w h : Nat) (hx : x < w) (hy : y < h) :
    y * w + x < h * w := by
  have h1 : y * w + x < (y + 1) * w := by
    have : (y + 1) * w = y * w + w := by ring
    omega
  have h2 : (y + 1) * w ≤ h * w := Nat.mul_le_mul_right w (by omega)
  omega

theorem rowmajor_mod (x y w : Nat) (hx : x < w) : (y * w + x) % w = x := by
  have h1 : y * w + x = x + y * w := by omega
  rw [h1, Nat.add_mul_mod_self_right, Nat.mod_eq_of_lt hx]

theorem rowmajor_div (x y w : Nat) (hx : x < w) : (y * w + x) / w = y := by
  have h1 : y * w + x = x + y * w := by omega
  rw [h1, Nat.add_mul_div_right _ _ (by omega : 0 < w), Nat.div_eq_of_lt hx]
  omega

/-! ### Claims -/

/-- C1: for every output coordinate `(x_out, y_out)` inside the
destination and every source with positive extents, the reference
evaluator stores at flat destination index `y_out * dst_w + x_out` the
source element selected by the per-axis algorithm exactly as the
specification words it (`specSrcIndex`): `shifted = out - offset` in
signed arithmetic, `prime = shifted` if nonnegative else `-shifted - 1`,
`mod2s = prime mod (2 * extent)`, fold above `extent`, row-major lookup
`y_src * src_w + x_src`.  The offsets are below `2^31` so that the
`static_cast<int>` of the `unsigned int` parameters is value-preserving. -/
theorem claim_C1_per_pixel_algorithm (src dst : List α) (d : α)
    (sw sh dw dh ox oy : Nat)
    (hsw : 0 < sw) (hsh : 0 < sh)
    (hox : ox < 2 ^ 31) (hoy : oy < 2 ^ 31)
    (hdst : dst.length = dw * dh)
    (x_out y_out : Nat) (hx : x_out < dw) (hy : y_out < dh) :
    (cpu_reference_calculation src dst sw sh dw dh ox oy d).getD
        (y_out * dw + x_out) d
      = vecRead src d (specSrcIndex sw sh (ox : Int) (oy : Int) x_out y_out) := by
  have hlen : dh * dw ≤ dst.length := by rw [hdst, Nat.mul_comm]
  rw [cpu_reference_getD src dst sw sh dw dh ox oy d hlen]
  have hi : y_out * dw + x_out < dh * dw := rowmajor_lt x_out y_out dw dh hx hy
  rw [if_pos hi, rowmajor_mod _ _ _ hx, rowmajor_div _ _ _ hx]
  congr 1
  rw [pixelSrcIndex_def]
  unfold specSrcIndex
  rw [toInt32_small ox hox, toInt32_small oy hoy]
  rw [mirror_eq_specMirror (sh : Int) _ (by positivity),
    mirror_eq_specMirror (sw : Int) _ (by positivity)]

/-- Witness for C1: the canonical configuration at destination pixel
(0,0). -/
theorem claim_C1_witness :
    (cpu_reference_calculation (List.range 20) (List.replicate 144 (0 : Nat))
        4 5 12 12 5 2 0).getD (0 * 12 + 0) 0
      = vecRead (List.range 20) 0 (specSrcIndex 4 5 (5 : Int) (2 : Int) 0 0) :=
  claim_C1_per_pixel_algorithm (List.range 20) (List.replicate 144 0) 0
    4 5 12 12 5 2 (by decide) (by decide) (by decide) (by decide)
    (by simp) 0 0 (by decide) (by decide)

/-- C2: for every positive extent the per-axis mirrored index lies in
`[0, extent)`; consequently the flat source index computed for any output
pixel, destination size and offset is in `[0, src_w * src_h)`, so every
source read of `cpu_reference_calculation` is inside a source buffer of
length `src_w * src_h`. -/
theorem claim_C2_reads_in_range (e s : Int) (he : 0 < e)
    (sw sh ox oy x y : Nat) (hsw : 0 < sw) (hsh : 0 < sh)
    (src : List α) (hsrc : src.length = sw * sh) :
    (0 ≤ mirrorIndex e s ∧ mirrorIndex e s < e) ∧
    (0 ≤ pixelSrcIndex sw sh ox oy x y ∧
      (pixelSrcIndex sw sh ox oy x y).toNat < src.length) := by
  refine ⟨mirror_range e s he, ?_⟩
  obtain ⟨h0, h1⟩ := pixelSrcIndex_range sw sh ox oy x y hsw hsh
  refine ⟨h0, ?_⟩
  have hcast : ((sw * sh : Nat) : Int) = (sw : Int) * (sh : Int) := by push_cast; ring
  rw [hsrc]
  omega

/-- Witness for C2: extent 4, shifted coordinate -5, and the canonical
4×5 source with offset (5,2) at output pixel (0,0). -/
theorem claim_C2_witness :
    ((0 : Int) ≤ mirrorIndex 4 (-5) ∧ mirrorIndex 4 (-5) < 4) ∧
    ((0 : Int) ≤ pixelSrcIndex 4 5 5 2 0 0 ∧
      (pixelSrcIndex 4 5 5 2 0 0).toNat < (List.range 20).length) :=
  claim_C2_reads_in_range 4 (-5) (by decide) 4 5 5 2 0 0 (by decide) (by decide)
    (List.range 20) (by decide)

/-- C3: in the canonical run (4×5 source with values 0..19, 12×12
destination, offset (5,2)) the expected buffer has value 7 at destination
coordinate (0,0): the shifted coordinates are (-5,-2), the mirrored x
index is 3, the mirrored y index is 1, and `source[1 * 4 + 3] = 7`. -/
theorem claim_C3_canonical_origin :
    canonical_cpu_result.getD (0 * 12 + 0) 0 = 7 ∧
    ((0 : Int) - toInt32 5 = -5 ∧ (0 : Int) - toInt32 2 = -2) ∧
    mirrorIndex 4 (-5) = 3 ∧ mirrorIndex 5 (-2) = 1 ∧
    host_input_data.getD (1 * 4 + 3) 0 = 7 := by
  refine ⟨?_, ⟨by decide, by decide⟩, by decide, by decide, by decide⟩
  decide

/-- C4: for every positive extent the per-axis mirrored index is periodic
in the shifted coordinate with period `2 * extent` and is a palindrome
within each period (reflection with no duplicated edge pixel); for extent
4 the indices at s = 0,...,8 are 0,1,2,3,3,2,1,0,0. -/
theorem claim_C4_triangle_wave :
    (∀ e s : Int, 0 < e →
      mirrorIndex e (s + 2 * e) = mirrorIndex e s ∧
      mirrorIndex e (2 * e - 1 - s) = mirrorIndex e s) ∧
    (List.range 9).map (fun s => mirrorIndex 4 (s : Int))
      = [0, 1, 2, 3, 3, 2, 1, 0, 0] := by
  constructor
  · intro e s he
    refine ⟨mirror_period e s he, ?_⟩
    have h1 : 2 * e - 1 - s = (-1 - s) + 2 * e := by ring
    rw [h1, mirror_period e (-1 - s) he, mirror_reflect]
  · decide

/-- Witness for C4: period and palindrome at extent 4, shifted
coordinate 5. -/
theorem claim_C4_witness :
    mirrorIndex 4 (5 + 2 * 4) = mirrorIndex 4 5 ∧
    mirrorIndex 4 (2 * 4 - 1 - 5) = mirrorIndex 4 5 :=
  claim_C4_triangle_wave.1 4 5 (by decide)

/-- C5: with offset (0,0) and destination dimensions equal to the source
dimensions, the reference evaluator reproduces the source buffer
exactly. -/
theorem claim_C5_identity (src dst : List α) (d : α) (w h : Nat)
    (hsrc : src.length = w * h) (hdst : dst.length = w * h) :
    cpu_reference_calculation src dst w h w h 0 0 d = src := by
  have hlen2 : h * w ≤ dst.length := by rw [hdst, Nat.mul_comm]
  apply List.ext_getElem
  · rw [cpu_reference_length, hdst, hsrc]
  · intro n h₁ h₂
    rw [← List.getD_eq_getElem src d h₂]
    rw [← List.getD_eq_getElem _ d h₁]
    rw [cpu_reference_getD src dst w h w h 0 0 d hlen2 n]
    have hn : n < w * h := by rw [← hsrc]; exact h₂
    have hw : 0 < w := by
      rcases Nat.eq_zero_or_pos w with h0 | h0
      · subst h0; omega
      · exact h0
    have hh : 0 < h := by
      rcases Nat.eq_zero_or_pos h with h0 | h0
      · subst h0; omega
      · exact h0
    have hn2 : n < h * w := by rw [Nat.mul_comm]; exact hn
    rw [if_pos hn2]
    have hxm : n % w < w := Nat.mod_lt _ hw
    have hyd : n / w < h := by rw [Nat.div_lt_iff_lt_mul hw]; exact hn2
    have hz : toInt32 0 = ((0 : Nat) : Int) := toInt32_small 0 (by decide)
    rw [pixelSrcIndex_def, hz]
    have hxc : ((n % w : Nat) : Int) - ((0 : Nat) : Int) = ((n % w : Nat) : Int) := by
      push_cast; ring
    have hyc : ((n / w : Nat) : Int) - ((0 : Nat) : Int) = ((n / w : Nat) : Int) := by
      push_cast; ring
    rw [hxc, hyc]
    rw [mirror_small (w : Int) _ (by exact_mod_cast hw) (by positivity)
      (by exact_mod_cast hxm)]
    rw [mirror_small (h : Int) _ (by exact_mod_cast hh) (by positivity)
      (by exact_mod_cast hyd)]
    have hidx : ((n / w : Nat) : Int) * (w : Int) + ((n % w : Nat) : Int)
        = (n : Int) := by
      have hdm : n / w * w + n % w = n := by
        rw [Nat.mul_comm (n / w) w]
        exact Nat.div_add_mod n w
      exact_mod_cast hdm
    rw [hidx]
    rw [vecRead, if_neg (by omega : ¬ (n : Int) < 0)]
    simp

/-- Witness for C5: a 2×2 source reproduced exactly. -/
theorem claim_C5_witness :
    cpu_reference_calculation [3, 1, 4, 1] [0, 0, 0, 0] 2 2 2 2 0 0 (0 : Nat)
      = [3, 1, 4, 1] :=
  claim_C5_identity [3, 1, 4, 1] [0, 0, 0, 0] 0 2 2 (by decide) (by decide)

/-- Scan of the comparison loop from position `i` with `fuel` remaining
indices: the flag is true exactly when all scanned pairs agree, and the
first disagreeing pair is the one recorded. -/
theorem compareResults_spec [DecidableEq α] (cpu kern : List α) (d : α)
    (fuel i : Nat) :
    ((compareResults cpu kern d i fuel).1 = true ↔
      ∀ k, k < fuel → cpu.getD (i + k) d = kern.getD (i + k) d) ∧
    (∀ j, j < fuel →
      (∀ k, k < j → cpu.getD (i + k) d = kern.getD (i + k) d) →
      cpu.getD (i + j) d ≠ kern.getD (i + j) d →
      compareResults cpu kern d i fuel
        = (false, some (i + j, cpu.getD (i + j) d, kern.getD (i + j) d))) := by
  induction fuel generalizing i with
  | zero =>
    constructor
    · simp [compareResults]
    · intro j hj
      omega
  | succ fuel ih =>
    by_cases heq : cpu.getD i d = kern.getD i d
    · have hstep : compareResults cpu kern d i (fuel + 1)
          = compareResults cpu kern d (i + 1) fuel := by
        rw [compareResults, if_neg (by simpa using heq)]
      constructor
      · rw [hstep, (ih (i + 1)).1]
        constructor
        · intro hall k hk
          rcases Nat.eq_zero_or_pos k with h0 | h0
          · subst h0; simpa using heq
          · have := hall (k - 1) (by omega)
            have harr : i + 1 + (k - 1) = i + k := by omega
            rw [harr] at this
            exact this
        · intro hall k hk
          have := hall (k + 1) (by omega)
          have harr : i + (k + 1) = i + 1 + k := by omega
          rw [harr] at this
          exact this
      · intro j hj hpre hne
        rcases Nat.eq_zero_or_pos j with h0 | h0
        · subst h0
          exact absurd (by simpa using heq) hne
        · have hpre2 : ∀ k, k < j - 1 →
              cpu.getD (i + 1 + k) d = kern.getD (i + 1 + k) d := by
            intro k hk
            have := hpre (k + 1) (by omega)
            have harr : i + (k + 1) = i + 1 + k := by omega
            rw [harr] at this
            exact this
          have hne2 : cpu.getD (i + 1 + (j - 1)) d ≠ kern.getD (i + 1 + (j - 1)) d := by
            have harr : i + 1 + (j - 1) = i + j := by omega
            rw [harr]
            exact hne
          have := (ih (i + 1)).2 (j - 1) (by omega) hpre2 hne2
          rw [hstep, this]
          have harr : i + 1 + (j - 1) = i + j := by omega
          rw [harr]
    · have hstep : compareResults cpu kern d i (fuel + 1)
          = (false, some (i, cpu.getD i d, kern.getD i d)) := by
        rw [compareResults, if_pos (by simpa using heq)]
      constructor
      · rw [hstep]
        simp only [Bool.false_eq_true, false_iff]
        intro hall
        exact heq (by simpa using hall 0 (by omega))
      · intro j hj hpre hne
        rcases Nat.eq_zero_or_pos j with h0 | h0
        · subst h0
          rw [hstep]
          simp
        · exact absurd (by simpa using hpre 0 (by omega)) heq

/-- C6: the comparison loop yields `manual_match = true` exactly when all
`n` corresponding elements of the two flattened buffers are equal (exact
equality, no tolerance), scanning in increasing index order; at the first
unequal pair it records that index and both values and stops, so the
result carries at most one mismatch. -/
theorem claim_C6_comparison [DecidableEq α] (cpu kern : List α) (d : α) (n : Nat) :
    ((compareResults cpu kern d 0 n).1 = true ↔
      ∀ i, i < n → cpu.getD i d = kern.getD i d) ∧
    (∀ j, j < n → (∀ i, i < j → cpu.getD i d = kern.getD i d) →
      cpu.getD j d ≠ kern.getD j d →
      compareResults cpu kern d 0 n
        = (false, some (j, cpu.getD j d, kern.getD j d))) := by
  obtain ⟨h1, h2⟩ := compareResults_spec cpu kern d n 0
  constructor
  · rw [h1]
    constructor <;> intro h k hk <;> simpa using h k hk
  · intro j hj hpre hne
    have := h2 j hj (by intro k hk; simpa using hpre k hk) (by simpa using hne)
    simpa using this

/-- Witness for C6: buffers [0,1] and [0,2] disagree first (and only) at
index 1 and the loop reports exactly that pair. -/
theorem claim_C6_witness :
    compareResults [0, 1] [0, 2] (0 : Nat) 0 2 = (false, some (1, 1, 2)) := by
  have h := (claim_C6_comparison [0, 1] [0, 2] (0 : Nat) 2).2 1 (by decide)
    (by decide) (by decide)
  simpa using h

/-- On an all-success environment `main` runs to completion: exit code 0
and the four stdout items, the two grids among them, whatever the device
returned. -/
theorem main_model_ok (env : ClEnv Nat) (hok : envOk env) :
    main_model env =
      { exitCode := 0,
        stdout := [StdoutItem.resultsHeader,
          StdoutItem.passFailLine
            ((compareResults canonical_cpu_result env.kernelResult 0 0 144).1),
          StdoutItem.cpuResultGrid canonical_cpu_result,
          StdoutItem.kernelResultGrid env.kernelResult] } := by
  obtain ⟨h1, h2, h3, h4, h5, h6, h7, h8, h9, h10, h11, h12, h13, h14, h15, h16⟩ := hok
  show (if env.statusGetPlatformIDs ≠ CL_SUCCESS then fatalOutcome
    else if env.statusGetDeviceIDs ≠ CL_SUCCESS then fatalOutcome
    else if env.statusCreateContext ≠ CL_SUCCESS then fatalOutcome
    else if env.statusCreateCommandQueue ≠ CL_SUCCESS then fatalOutcome
    else if env.kernelFileOpens = false then fatalOutcome
    else if env.statusCreateProgramWithSource ≠ CL_SUCCESS then fatalOutcome
    else if env.statusBuildProgram ≠ CL_SUCCESS then fatalOutcome
    else if env.statusCreateKernel ≠ CL_SUCCESS then fatalOutcome
    else if env.statusCreateImageIn ≠ CL_SUCCESS then fatalOutcome
    else if env.statusCreateImageOut ≠ CL_SUCCESS then fatalOutcome
    else if env.statusSetArg0 ≠ CL_SUCCESS then fatalOutcome
    else if env.statusSetArg1 ≠ CL_SUCCESS then fatalOutcome
    else if env.statusSetArg2 ≠ CL_SUCCESS then fatalOutcome
    else if env.statusEnqueueNDRange ≠ CL_SUCCESS then fatalOutcome
    else if env.statusReadImage ≠ CL_SUCCESS then fatalOutcome
    else if env.statusFinish ≠ CL_SUCCESS then fatalOutcome
    else
      { exitCode := 0,
        stdout := [StdoutItem.resultsHeader,
          StdoutItem.passFailLine
            ((compareResults canonical_cpu_result env.kernelResult 0 0 144).1),
          StdoutItem.cpuResultGrid canonical_cpu_result,
          StdoutItem.kernelResultGrid env.kernelResult] }) = _
  rw [if_neg (show ¬ env.statusGetPlatformIDs ≠ CL_SUCCESS from by rw [h1]; simp),
    if_neg (show ¬ env.statusGetDeviceIDs ≠ CL_SUCCESS from by rw [h2]; simp),
    if_neg (show ¬ env.statusCreateContext ≠ CL_SUCCESS from by rw [h3]; simp),
    if_neg (show ¬ env.statusCreateCommandQueue ≠ CL_SUCCESS from by rw [h4]; simp),
    if_neg (show ¬ env.kernelFileOpens = false from by rw [h5]; simp),
    if_neg (show ¬ env.statusCreateProgramWithSource ≠ CL_SUCCESS from by rw [h6]; simp),
    if_neg (show ¬ env.statusBuildProgram ≠ CL_SUCCESS from by rw [h7]; simp),
    if_neg (show ¬ env.statusCreateKernel ≠ CL_SUCCESS from by rw [h8]; simp),
    if_neg (show ¬ env.statusCreateImageIn ≠ CL_SUCCESS from by rw [h9]; simp),
    if_neg (show ¬ env.statusCreateImageOut ≠ CL_SUCCESS from by rw [h10]; simp),
    if_neg (show ¬ env.statusSetArg0 ≠ CL_SUCCESS from by rw [h11]; simp),
    if_neg (show ¬ env.statusSetArg1 ≠ CL_SUCCESS from by rw [h12]; simp),
    if_neg (show ¬ env.statusSetArg2 ≠ CL_SUCCESS from by rw [h13]; simp),
    if_neg (show ¬ env.statusEnqueueNDRange ≠ CL_SUCCESS from by rw [h14]; simp),
    if_neg (show ¬ env.statusReadImage ≠ CL_SUCCESS from by rw [h15]; simp),
    if_neg (show ¬ env.statusFinish ≠ CL_SUCCESS from by rw [h16]; simp)]

/-- The body of `main_model` with its local lets unfolded. -/
theorem main_model_def (env : ClEnv Nat) :
    main_model env =
      (if env.statusGetPlatformIDs ≠ CL_SUCCESS then fatalOutcome
      else if env.statusGetDeviceIDs ≠ CL_SUCCESS then fatalOutcome
      else if env.statusCreateContext ≠ CL_SUCCESS then fatalOutcome
      else if env.statusCreateCommandQueue ≠ CL_SUCCESS then fatalOutcome
      else if env.kernelFileOpens = false then fatalOutcome
      else if env.statusCreateProgramWithSource ≠ CL_SUCCESS then fatalOutcome
      else if env.statusBuildProgram ≠ CL_SUCCESS then fatalOutcome
      else if env.statusCreateKernel ≠ CL_SUCCESS then fatalOutcome
      else if env.statusCreateImageIn ≠ CL_SUCCESS then fatalOutcome
      else if env.statusCreateImageOut ≠ CL_SUCCESS then fatalOutcome
      else if env.statusSetArg0 ≠ CL_SUCCESS then fatalOutcome
      else if env.statusSetArg1 ≠ CL_SUCCESS then fatalOutcome
      else if env.statusSetArg2 ≠ CL_SUCCESS then fatalOutcome
      else if env.statusEnqueueNDRange ≠ CL_SUCCESS then fatalOutcome
      else if env.statusReadImage ≠ CL_SUCCESS then fatalOutcome
      else if env.statusFinish ≠ CL_SUCCESS then fatalOutcome
      else
        { exitCode := 0,
          stdout := [StdoutItem.resultsHeader,
            StdoutItem.passFailLine
              ((compareResults canonical_cpu_result env.kernelResult 0 0 144).1),
            StdoutItem.cpuResultGrid canonical_cpu_result,
            StdoutItem.kernelResultGrid env.kernelResult] }) := rfl

/-- On any environment violating `envOk` the run aborts with exit code
1 (via `CL_CHECK` or one of the `return 1` branches). -/
theorem main_model_fail (env : ClEnv Nat) (h : ¬ envOk env) :
    (main_model env).exitCode = 1 := by
  rw [main_model_def]
  by_cases h1 : env.statusGetPlatformIDs = CL_SUCCESS
  · rw [if_neg (not_not_intro h1)]
    by_cases h2 : env.statusGetDeviceIDs = CL_SUCCESS
    · rw [if_neg (not_not_intro h2)]
      by_cases h3 : env.statusCreateContext = CL_SUCCESS
      · rw [if_neg (not_not_intro h3)]
        by_cases h4 : env.statusCreateCommandQueue = CL_SUCCESS
        · rw [if_neg (not_not_intro h4)]
          by_cases h5 : env.kernelFileOpens = false
          · rw [if_pos h5]
            rfl
          · rw [if_neg h5]
            by_cases h6 : env.statusCreateProgramWithSource = CL_SUCCESS
            · rw [if_neg (not_not_intro h6)]
              by_cases h7 : env.statusBuildProgram = CL_SUCCESS
              · rw [if_neg (not_not_intro h7)]
                by_cases h8 : env.statusCreateKernel = CL_SUCCESS
                · rw [if_neg (not_not_intro h8)]
                  by_cases h9 : env.statusCreateImageIn = CL_SUCCESS
                  · rw [if_neg (not_not_intro h9)]
                    by_cases h10 : env.statusCreateImageOut = CL_SUCCESS
                    · rw [if_neg (not_not_intro h10)]
                      by_cases h11 : env.statusSetArg0 = CL_SUCCESS
                      · rw [if_neg (not_not_intro h11)]
                        by_cases h12 : env.statusSetArg1 = CL_SUCCESS
                        · rw [if_neg (not_not_intro h12)]
                          by_cases h13 : env.statusSetArg2 = CL_SUCCESS
                          · rw [if_neg (not_not_intro h13)]
                            by_cases h14 : env.statusEnqueueNDRange = CL_SUCCESS
                            · rw [if_neg (not_not_intro h14)]
                              by_cases h15 : env.statusReadImage = CL_SUCCESS
                              · rw [if_neg (not_not_intro h15)]
                                by_cases h16 : env.statusFinish = CL_SUCCESS
                                · rw [if_neg (not_not_intro h16)]
                                  exfalso
                                  apply h
                                  have h5t : env.kernelFileOpens = true := by
                                    revert h5
                                    cases env.kernelFileOpens <;> simp
                                  exact ⟨h1, h2, h3, h4, h5t, h6, h7, h8, h9, h10, h11, h12, h13, h14, h15, h16⟩
                                · rw [if_pos h16]
                                  rfl
                              · rw [if_pos h15]
                                rfl
                            · rw [if_pos h14]
                              rfl
                          · rw [if_pos h13]
                            rfl
                        · rw [if_pos h12]
                          rfl
                      · rw [if_pos h11]
                        rfl
                    · rw [if_pos h10]
                      rfl
                  · rw [if_pos h9]
                    rfl
                · rw [if_pos h8]
                  rfl
              · rw [if_pos h7]
                rfl
            · rw [if_pos h6]
              rfl
        · rw [if_pos h4]
          rfl
      · rw [if_pos h3]
        rfl
    · rw [if_pos h2]
      rfl
  · rw [if_pos h1]
    rfl

/-- C7: the process exit code is 0 whenever every external call succeeds
(regardless of what buffer the device returned, hence even when the
comparison fails), 1 whenever any external call fails, and it never
depends on the buffer the device returned. -/
theorem claim_C7_exit_codes (env : ClEnv Nat) :
    (envOk env → (main_model env).exitCode = 0) ∧
    (¬ envOk env → (main_model env).exitCode = 1) ∧
    (∀ kr : List Nat,
      (main_model { env with kernelResult := kr }).exitCode
        = (main_model env).exitCode) := by
  refine ⟨?_, main_model_fail env, ?_⟩
  · intro hok
    rw [main_model_ok env hok]
  · intro kr
    by_cases hok : envOk env
    · have hok2 : envOk { env with kernelResult := kr } := hok
      rw [main_model_ok env hok, main_model_ok _ hok2]
    · have hok2 : ¬ envOk { env with kernelResult := kr } := hok
      rw [main_model_fail env hok, main_model_fail _ hok2]

/-- Witness for C7: an all-success environment whose device buffer
mismatches the CPU reference still exits 0, and an environment whose
first call fails exits 1. -/
theorem claim_C7_witness :
    (main_model testEnvMismatch).exitCode = 0 ∧
    (main_model testEnvNoPlatform).exitCode = 1 :=
  ⟨(claim_C7_exit_codes testEnvMismatch).1
      ⟨rfl, rfl, rfl, rfl, rfl, rfl, rfl, rfl, rfl, rfl, rfl, rfl, rfl,
        rfl, rfl, rfl⟩,
   (claim_C7_exit_codes testEnvNoPlatform).2.1
      (fun h => absurd h.1 (by decide))⟩

/-- C8: whenever the run reaches the comparison, both the expected (CPU)
buffer and the actual (kernel) buffer grids are printed, with no
condition on the match flag. -/
theorem claim_C8_always_prints (env : ClEnv Nat) (hok : envOk env) :
    StdoutItem.cpuResultGrid canonical_cpu_result ∈ (main_model env).stdout ∧
    StdoutItem.kernelResultGrid env.kernelResult ∈ (main_model env).stdout := by
  rw [main_model_ok env hok]
  constructor
  · exact List.mem_cons_of_mem _ (List.mem_cons_of_mem _ (List.mem_cons_self _ _))
  · exact List.mem_cons_of_mem _ (List.mem_cons_of_mem _
      (List.mem_cons_of_mem _ (List.mem_cons_self _ _)))

/-- Witness for C8: the mismatching all-success environment prints both
grids even though the comparison fails. -/
theorem claim_C8_witness :
    StdoutItem.cpuResultGrid canonical_cpu_result
        ∈ (main_model testEnvMismatch).stdout ∧
    StdoutItem.kernelResultGrid (List.replicate 144 0)
        ∈ (main_model testEnvMismatch).stdout :=
  claim_C8_always_prints testEnvMismatch
    ⟨rfl, rfl, rfl, rfl, rfl, rfl, rfl, rfl, rfl, rfl, rfl, rfl, rfl,
      rfl, rfl, rfl⟩

/-- The sequence of flat destination indices written by the nested loops,
in iteration order, is exactly 0, 1, ..., dst_h * dst_w - 1. -/
theorem loopPixels_writes (w h : Nat) :
    (loopPixels w h).map (fun p => p.2 * w + p.1) = List.range (h * w) := by
  induction h with
  | zero => simp [loopPixels]
  | succ h ih =>
    rw [loopPixels, List.range_succ, List.flatMap_append, List.flatMap_singleton,
      List.map_append, ← loopPixels, ih]
    have hmul : (h + 1) * w = h * w + w := by ring
    rw [hmul, List.range_add, List.map_map]
    rfl

/-- C9: the Reference Evaluator is deterministic (identical source data,
destination buffer, dimensions and offset give identical output buffers)
and the per-axis mirroring is total for positive extents, always
producing a value, which lies in `[0, extent)` (no division by zero:
the modulus `2 * extent` is nonzero). -/
theorem claim_C9_deterministic (src₁ src₂ dst₁ dst₂ : List α) (d₁ d₂ : α)
    (sw sh dw dh ox oy : Nat)
    (hsrc : src₁ = src₂) (hdst : dst₁ = dst₂) (hd : d₁ = d₂) :
    cpu_reference_calculation src₁ dst₁ sw sh dw dh ox oy d₁
      = cpu_reference_calculation src₂ dst₂ sw sh dw dh ox oy d₂ ∧
    (∀ e s : Int, 0 < e → ∃ v : Int, mirrorIndex e s = v ∧ 0 ≤ v ∧ v < e) := by
  subst hsrc
  subst hdst
  subst hd
  refine ⟨rfl, ?_⟩
  intro e s he
  exact ⟨mirrorIndex e s, rfl, (mirror_range e s he).1, (mirror_range e s he).2⟩

/-- Witness for C9: two evaluations on the same concrete inputs. -/
theorem claim_C9_witness :
    cpu_reference_calculation [1, 2] [0, 0] 2 1 2 1 0 0 (0 : Nat)
      = cpu_reference_calculation [1, 2] [0, 0] 2 1 2 1 0 0 (0 : Nat) ∧
    (∀ e s : Int, 0 < e → ∃ v : Int, mirrorIndex e s = v ∧ 0 ≤ v ∧ v < e) :=
  claim_C9_deterministic [1, 2] [1, 2] [0, 0] [0, 0] 0 0 2 1 2 1 0 0 rfl rfl rfl

/-- C10: the call leaves the source vector unchanged, preserves the
destination length, leaves every destination element at index at least
`dst_w * dst_h` unchanged, and the sequence of indices it writes is
exactly 0 .. dst_w * dst_h - 1, each exactly once and in order. -/
theorem claim_C10_frame (m : BufMem α) (sw sh dw dh ox oy : Nat) (d : α)
    (hdst : m.dst_data.length = dw * dh) :
    (cpu_reference_run m sw sh dw dh ox oy d).src_data = m.src_data ∧
    (cpu_reference_run m sw sh dw dh ox oy d).dst_data.length
      = m.dst_data.length ∧
    (∀ i, dw * dh ≤ i →
      (cpu_reference_run m sw sh dw dh ox oy d).dst_data.getD i d
        = m.dst_data.getD i d) ∧
    (loopPixels dw dh).map (fun p => p.2 * dw + p.1) = List.range (dw * dh) := by
  have hcomm : dh * dw = dw * dh := Nat.mul_comm dh dw
  refine ⟨rfl, cpu_reference_length _ _ _ _ _ _ _ _ _, ?_, ?_⟩
  · intro i hi
    show (cpu_reference_calculation m.src_data m.dst_data
        sw sh dw dh ox oy d).getD i d = m.dst_data.getD i d
    rw [cpu_reference_getD _ _ _ _ _ _ _ _ _ (by omega) i]
    rw [if_neg (by omega : ¬ i < dh * dw)]
  · rw [loopPixels_writes, hcomm]

/-- Witness for C10: the canonical destination geometry. -/
theorem claim_C10_witness :
    (cpu_reference_run ⟨[5, 6], [7, 8]⟩ 2 1 2 1 0 0 (0 : Nat)).src_data
        = [5, 6] ∧
    (cpu_reference_run ⟨[5, 6], [7, 8]⟩ 2 1 2 1 0 0 (0 : Nat)).dst_data.length
        = ([7, 8] : List Nat).length ∧
    (∀ i, 2 * 1 ≤ i →
      (cpu_reference_run ⟨[5, 6], [7, 8]⟩ 2 1 2 1 0 0 (0 : Nat)).dst_data.getD i 0
        = ([7, 8] : List Nat).getD i 0) ∧
    (loopPixels 2 1).map (fun p => p.2 * 2 + p.1) = List.range (2 * 1) :=
  claim_C10_frame ⟨[5, 6], [7, 8]⟩ 2 1 2 1 0 0 0 (by decide)
